import Mathlib

/-!
Verification development for the page-controls popup userscript
(`src/urlbar.uc.js`).  The script's structured behaviour — the extension-list
reconciler, the panel show/hide lifecycle with its global dismissal
listeners, the extension context menu, the security-status indicator and the
action handlers (open popup / toggle, remove extension, clear cookies) — is
shallowly embedded below.  DOM containers become lists of rendered nodes,
host lookups (AddonManager, WebExtensionPolicy, gUnifiedExtensions,
Services.cookies, document.querySelector hits) become explicit environment
records, and thrown-and-caught host exceptions become boolean environment
flags, so that every translated function is executable.
-/

namespace PageControls

/-- Fallback icon from `CONFIG.FALLBACK_ICON`. -/
def FALLBACK_ICON : String := "chrome://mozapps/skin/extensions/extension.svg"

/-- One installed, non-system extension as the script observes it: the
`AddonManager` record together with the two host queries the script makes
about it (`WebExtensionPolicy.getByID` succeeding, and
`gUnifiedExtensions.browserActionFor` returning an action). -/
structure Addon where
  id : String
  name : String
  iconURL : Option String
  isActive : Bool
  hasPolicy : Bool
  hasAction : Bool
deriving Repr, DecidableEq

/-- One rendered extension entry: the `div.extension-wrapper` tagged with
`data-extension-id` together with the attributes of its `.extension-icon`
image child. -/
structure ExtNode where
  extId : String
  src : String
  tooltip : String
  enabled : Bool
deriving Repr, DecidableEq

/-- `getExtensionIconSrc`: the declared icon URL if it is a non-empty
string, else the fallback icon (in JS, `addon.iconURL && typeof ... ===
"string"` is falsy for `null`, `undefined` and `""`). -/
def getExtensionIconSrc (addon : Addon) : String :=
  match addon.iconURL with
  | some url => if url = "" then FALLBACK_ICON else url
  | none => FALLBACK_ICON

/-- `getExtensionTooltip`: "Open name" when the extension is active and has
a policy with an invocable browser action; otherwise "Disable name" when
active and "Enable name" when inactive.  An empty name falls back to
"Extension" (`addon.name || 'Extension'`). -/
def getExtensionTooltip (addon : Addon) : String :=
  let extensionName := if addon.name = "" then "Extension" else addon.name
  if addon.isActive && addon.hasPolicy && addon.hasAction then
    "Open " ++ extensionName
  else if addon.isActive then
    "Disable " ++ extensionName
  else
    "Enable " ++ extensionName

/-- `updateExistingExtension`: rewrites the `enabled` attribute, the tooltip
and (when changed — the guard avoids a redundant write but not a different
result) the icon `src` of an already-rendered wrapper.  The
`data-extension-id` tag is untouched. -/
def updateExistingExtension (node : ExtNode) (addon : Addon) : ExtNode :=
  { node with
    enabled := addon.isActive
    tooltip := getExtensionTooltip addon
    src := getExtensionIconSrc addon }

/-- `createExtensionWrapper` + `createExtensionImage` as performed by
`addNewExtension`: a fresh wrapper tagged with the addon id, carrying the
resolved icon, tooltip and enabled state. -/
def createExtensionNode (addon : Addon) : ExtNode :=
  { extId := addon.id
    src := getExtensionIconSrc addon
    tooltip := getExtensionTooltip addon
    enabled := addon.isActive }

/-- `container.querySelector('[data-extension-id=...]')` followed by
`updateExistingExtension` updates the first matching wrapper only. -/
def updateFirstMatching (container : List ExtNode) (addon : Addon) : List ExtNode :=
  match container with
  | [] => []
  | n :: rest =>
    if n.extId = addon.id then updateExistingExtension n addon :: rest
    else n :: updateFirstMatching rest addon

/-- The body of the `for (const addon of userExtensions)` loop in
`processExtensions`: update the existing wrapper in place when the id is
already rendered, else insert a fresh wrapper as the container's first
child (`container.insertBefore(wrapper, container.firstChild)`). -/
def processOneExtension (container : List ExtNode) (addon : Addon) : List ExtNode :=
  if container.any (fun n => n.extId = addon.id) then
    updateFirstMatching container addon
  else
    createExtensionNode addon :: container

/-- The whole per-addon loop of `processExtensions` (the rebuild of the
`extensionData` id-to-record cache performed alongside does not touch the
container and is not modelled). -/
def processExtensionsLoop (container : List ExtNode) : List Addon → List ExtNode
  | [] => container
  | addon :: rest => processExtensionsLoop (processOneExtension container addon) rest

/-- `removeUninstalledExtensions`: removes every rendered wrapper whose id
is truthy (non-empty) and absent from the current extension set; a wrapper
is kept exactly when its id is empty or present in the current set. -/
def removeUninstalledExtensions (container : List ExtNode) (userExtensions : List Addon) :
    List ExtNode :=
  container.filter fun n =>
    decide (n.extId = "") || userExtensions.any (fun a => decide (a.id = n.extId))

/-- `processExtensions`: the per-addon loop followed by
`removeUninstalledExtensions` — one full reconciliation pass. -/
def processExtensions (container : List ExtNode) (userExtensions : List Addon) :
    List ExtNode :=
  removeUninstalledExtensions (processExtensionsLoop container userExtensions) userExtensions

/-- The ids of the rendered wrappers, in container order. -/
def renderedIds (container : List ExtNode) : List String :=
  container.map ExtNode.extId

/-- The ids of the current non-system extension query result. -/
def addonIds (userExtensions : List Addon) : List String :=
  userExtensions.map Addon.id

/-! ### Security-status indicator (`updateSecurityStatus`) -/

/-- The document state `updateSecurityStatus` reads: whether its two DOM
anchors resolve, the two attributes of `#identity-permission-box`, and the
scheme of `gBrowser.currentURI` (`none` when the URI is null). -/
structure SecurityEnv where
  securityImagePresent : Bool
  identityBoxPresent : Bool
  hasSharingIcon : Bool
  hasPermissions : Bool
  uriScheme : Option String
deriving Repr, DecidableEq

/-- `updateSecurityStatus`: `none` means the update aborted without touching
the icon (a logged no-op — the whole body is inside `try`/`catch`, so
nothing ever escapes); `some src` means the icon's `src` attribute was set
to `src`. -/
def updateSecurityStatus (env : SecurityEnv) : Option String :=
  if !env.securityImagePresent then none
  else if !env.identityBoxPresent then none
  else some (
    if env.hasSharingIcon then
      "chrome://browser/skin/zen-icons/shield-check.svg"
    else if env.hasPermissions then
      "chrome://browser/skin/zen-icons/shield-exclamation.svg"
    else
      match env.uriScheme with
      | some s =>
        if s = "https" then "chrome://browser/skin/zen-icons/security.svg"
        else if s = "http" then "chrome://browser/skin/zen-icons/lock-open.svg"
        else "chrome://browser/skin/zen-icons/info.svg"
      | none => "chrome://browser/skin/zen-icons/info.svg")

/-! ### Panel lifecycle (`PanelManager` mutable fields and window listeners) -/

/-- The mutable fields of the single `PanelManager` instance that the
lifecycle, context-menu and cleanup code reads and writes, together with
`windowListeners`, the number of capture-phase listeners currently
registered on `window` by `addPanelGlobalHandlers` (`addEventListener`
increments it, `removeEventListener` of a registered bound handler
decrements it). -/
structure PMState where
  panelExists : Bool
  isOpen : Bool
  addonListener : Bool
  pointerDownBound : Bool
  keyDownBound : Bool
  lastAnchorButton : Option Nat
  windowListeners : Nat
  currentContextMenu : Bool
  currentContextMenuExtensionId : Option String
  extrasMenuListenersSetup : Bool
  extensionMenuListenersSetup : Bool
deriving Repr, DecidableEq

/-- The `PanelManager` constructor state: everything null / false / empty. -/
def initState : PMState :=
  { panelExists := false
    isOpen := false
    addonListener := false
    pointerDownBound := false
    keyDownBound := false
    lastAnchorButton := none
    windowListeners := 0
    currentContextMenu := false
    currentContextMenuExtensionId := none
    extrasMenuListenersSetup := false
    extensionMenuListenersSetup := false }

/-- `addPanelGlobalHandlers`: returns immediately when either bound handler
is already set; otherwise creates both bound handlers and registers them on
`window` (one pointer-down, one key-down). -/
def addPanelGlobalHandlers (s : PMState) : PMState :=
  if s.pointerDownBound || s.keyDownBound then s
  else
    { s with
      pointerDownBound := true
      keyDownBound := true
      windowListeners := s.windowListeners + 2 }

/-- `removePanelGlobalHandlers`: removes each of the two bound handlers from
`window` if it is set, and nulls it out. -/
def removePanelGlobalHandlers (s : PMState) : PMState :=
  let s1 :=
    if s.pointerDownBound then
      { s with pointerDownBound := false, windowListeners := s.windowListeners - 1 }
    else s
  if s1.keyDownBound then
    { s1 with keyDownBound := false, windowListeners := s1.windowListeners - 1 }
  else s1

/-- `createPanel`: removes any stale panel element, creates the extras
context menu, and appends the panel XUL under `#mainPopupSet`; when
`#mainPopupSet` is missing it logs and returns with `this.panel` still
null. -/
def createPanel (s : PMState) (mainPopupSetPresent : Bool) : PMState :=
  if mainPopupSetPresent then { s with panelExists := true } else s

/-- `showPanel(targetButton)`: builds the panel if absent, and only when
both the panel and the target button are present does it register the
add-on listener (once), refresh extensions and security status, open the
popup anchored at the button, set `isOpen`, remember the anchor and
register the global dismissal handlers. -/
def showPanel (s : PMState) (targetButton : Option Nat) (mainPopupSetPresent : Bool) :
    PMState :=
  let s1 := if !s.panelExists then createPanel s mainPopupSetPresent else s
  if s1.panelExists then
    match targetButton with
    | some btn =>
      let s2 := { s1 with addonListener := true }
      let s3 := { s2 with isOpen := true, lastAnchorButton := some btn }
      addPanelGlobalHandlers s3
    | none => s1
  else s1

/-- `hidePanel`: a no-op unless the panel exists and is open; otherwise
hides the popup, flips `isOpen` false and deregisters the global
handlers. -/
def hidePanel (s : PMState) : PMState :=
  if s.panelExists && s.isOpen then
    removePanelGlobalHandlers { s with isOpen := false }
  else s

/-- `togglePanel`. -/
def togglePanel (s : PMState) (targetButton : Option Nat) (mainPopupSetPresent : Bool) :
    PMState :=
  if s.isOpen then hidePanel s else showPanel s targetButton mainPopupSetPresent

/-- A show or hide call, carrying the call's argument and the document
condition it observes. -/
inductive PanelOp where
  | doShow (targetButton : Option Nat) (mainPopupSetPresent : Bool)
  | doHide
deriving Repr, DecidableEq

/-- Runs a sequence of `showPanel` / `hidePanel` calls. -/
def runOps (s : PMState) : List PanelOp → PMState
  | [] => s
  | PanelOp.doShow t m :: rest => runOps (showPanel s t m) rest
  | PanelOp.doHide :: rest => runOps (hidePanel s) rest

/-- The listener bookkeeping invariant: each bound-handler field mirrors
`isOpen`, the window listener count is 2 when open and 0 when closed, and
an open panel exists. -/
def listenerInv (s : PMState) : Prop :=
  s.pointerDownBound = s.isOpen ∧ s.keyDownBound = s.isOpen ∧
  s.windowListeners = (if s.isOpen then 2 else 0) ∧
  (s.isOpen = true → s.panelExists = true)

instance (s : PMState) : Decidable (listenerInv s) := by
  unfold listenerInv
  infer_instance

/-! ### Extension context menu -/

/-- `showExtensionContextMenu(event, extensionId)`:
`ensureExtensionContextMenu` returns null (and the handler returns with the
state untouched) when `#mainPopupSet` is missing; otherwise the tracked
extension id is overwritten, the menu item listeners are wired once, the
popup is opened and `currentContextMenu` is set. -/
def showExtensionContextMenu (s : PMState) (extensionId : String)
    (mainPopupSetPresent : Bool) : PMState :=
  if mainPopupSetPresent then
    let s1 := { s with currentContextMenuExtensionId := some extensionId }
    let s2 :=
      if !s1.extensionMenuListenersSetup then
        { s1 with extensionMenuListenersSetup := true }
      else s1
    { s2 with currentContextMenu := true }
  else s

/-- `hideExtensionContextMenu`: hides the popup and clears both tracked
fields. -/
def hideExtensionContextMenu (s : PMState) : PMState :=
  { s with currentContextMenu := false, currentContextMenuExtensionId := none }

/-- `pinExtensionToToolbar`: when the policy lookup fails it logs and
returns early; otherwise it toggles the pin through one of the host APIs
(or falls back to the manage page) and calls `hidePanel`.  No branch
touches `currentContextMenuExtensionId`. -/
def pinExtensionToToolbar (s : PMState) (policyFound : Bool) : PMState :=
  if policyFound then hidePanel s else s

/-- The `#ext-menu-pin` command listener: dispatches to
`pinExtensionToToolbar` only when a tracked extension id is present. -/
def menuPinCommand (s : PMState) (policyFound : Bool) : PMState :=
  match s.currentContextMenuExtensionId with
  | some _ => pinExtensionToToolbar s policyFound
  | none => s

/-- `cleanup` (the window-unload path): removes the `AddonManager` listener
if registered, hides the extension context menu (clearing its tracked
state), and resets the extras-menu flag.  It never touches the global
dismissal handlers. -/
def cleanup (s : PMState) : PMState :=
  let s1 := if s.addonListener then { s with addonListener := false } else s
  let s2 := hideExtensionContextMenu s1
  { s2 with extrasMenuListenersSetup := false }

/-! ### Extension click: `openExtensionPopup` / `toggleExtensionState` /
`updateExtensionImageState` -/

/-- The host lookups an extension click performs:
`WebExtensionPolicy.getByID`, `gUnifiedExtensions.browserActionFor`,
whether `action.openPopup` throws, the `AddonManager.getAddonByID` result,
and whether the `addon.enable()` / `addon.disable()` host call throws. -/
structure PopupEnv where
  hasPolicy : Bool
  hasAction : Bool
  openPopupThrows : Bool
  addonLookup : Option Addon
  disableThrows : Bool
deriving Repr, DecidableEq

/-- `setNodeState`: the per-node effect of `updateExtensionImageState` —
the `enabled` attribute is set to `isEnabled` and, when the addon refetch
succeeds, the tooltip is recomputed from the addon with `isActive`
overridden by `isEnabled` (the `tempAddon` spread). -/
def setNodeState (node : ExtNode) (isEnabled : Bool) (addonAfter : Option Addon) :
    ExtNode :=
  let node1 := { node with enabled := isEnabled }
  match addonAfter with
  | some addon =>
    { node1 with tooltip := getExtensionTooltip { addon with isActive := isEnabled } }
  | none => node1

/-- `updateExtensionImageState`: `document.querySelector` finds the first
wrapper tagged with the extension id and updates its image in place; all
other rendered entries are untouched (no reconciliation pass runs). -/
def updateExtensionImageState (container : List ExtNode) (extensionId : String)
    (isEnabled : Bool) (addonAfter : Option Addon) : List ExtNode :=
  match container with
  | [] => []
  | n :: rest =>
    if n.extId = extensionId then setNodeState n isEnabled addonAfter :: rest
    else n :: updateExtensionImageState rest extensionId isEnabled addonAfter

/-- The observable outcome of a click on a rendered extension entry:
whether the action popup was opened, the container afterwards, the
confirmed new active state of the extension (if the host toggle ran), and
whether the handler called `hidePanel`. -/
structure ClickResult where
  popupOpened : Bool
  container : List ExtNode
  addonNowActive : Option Bool
  panelClosed : Bool
deriving Repr, DecidableEq

/-- Intermediate result of `toggleExtensionState`. -/
structure ToggleResult where
  container : List ExtNode
  addonNowActive : Option Bool
  panelClosed : Bool
deriving Repr, DecidableEq

/-- `toggleExtensionState`: when the addon lookup fails it logs and returns
without closing the panel; otherwise it awaits `disable()` / `enable()`
(the function has no `try`, so a rejection propagates to the caller —
modelled as `none`), updates the rendered image state to the flipped
activity and calls `hidePanel`. -/
def toggleExtensionState (container : List ExtNode) (extensionId : String)
    (env : PopupEnv) : Option ToggleResult :=
  match env.addonLookup with
  | none => some { container := container, addonNowActive := none, panelClosed := false }
  | some addon =>
    if env.disableThrows then none
    else
      let newActive := !addon.isActive
      some
        { container := updateExtensionImageState container extensionId newActive (some addon)
          addonNowActive := some newActive
          panelClosed := true }

/-- `openExtensionPopup` (the left-click handler on a rendered entry): with
a policy and an invocable action it opens the action popup and hides the
panel; otherwise it delegates to `toggleExtensionState`.  Any exception —
from `action.openPopup` or from a propagating toggle rejection — is caught
by the handler's own `catch`, which only logs, so on failure the panel
stays open and the container is unchanged. -/
def openExtensionPopup (container : List ExtNode) (extensionId : String)
    (env : PopupEnv) : ClickResult :=
  let toggled :=
    match toggleExtensionState container extensionId env with
    | some r =>
      { popupOpened := false
        container := r.container
        addonNowActive := r.addonNowActive
        panelClosed := r.panelClosed }
    | none =>
      { popupOpened := false
        container := container
        addonNowActive := none
        panelClosed := false }
  if env.hasPolicy then
    if env.hasAction then
      if env.openPopupThrows then
        { popupOpened := false
          container := container
          addonNowActive := none
          panelClosed := false }
      else
        { popupOpened := true
          container := container
          addonNowActive := none
          panelClosed := true }
    else toggled
  else toggled

/-! ### `removeExtension` -/

/-- The host conditions `removeExtension` observes: the
`AddonManager.getAddonByID` result, the `Services.prompt.confirm` answer,
which removal method the addon object exposes, and whether that method's
promise rejects. -/
structure RemoveEnv where
  addonFound : Bool
  confirmed : Bool
  hasUninstall : Bool
  hasRemove : Bool
  uninstallThrows : Bool
deriving Repr, DecidableEq

/-- The observable outcome of `removeExtension`. -/
structure RemoveResult where
  uninstalled : Bool
  panelClosed : Bool
  promptShown : Bool
deriving Repr, DecidableEq

/-- `removeExtension`: a missing addon or a declined confirmation returns
early without closing the panel.  After a successful `uninstall()` /
`remove()` the handler calls `this.updateExtensions()`, a method that does
not exist on the class, so the resulting TypeError lands in the handler's
`catch` and the trailing `hidePanel()` is never reached; a rejecting
removal promise lands there too.  Only the no-removal-API fallback closes
the panel (via `manageExtension`). -/
def removeExtension (env : RemoveEnv) : RemoveResult :=
  if !env.addonFound then
    { uninstalled := false, panelClosed := false, promptShown := false }
  else if !env.confirmed then
    { uninstalled := false, panelClosed := false, promptShown := true }
  else if env.hasUninstall then
    if env.uninstallThrows then
      { uninstalled := false, panelClosed := false, promptShown := true }
    else
      { uninstalled := true, panelClosed := false, promptShown := true }
  else if env.hasRemove then
    if env.uninstallThrows then
      { uninstalled := false, panelClosed := false, promptShown := true }
    else
      { uninstalled := true, panelClosed := false, promptShown := true }
  else
    { uninstalled := false, panelClosed := true, promptShown := true }

/-! ### `clearCookies` -/

/-- The host conditions `clearCookies` observes.  `newApiThrows` is a
wholesale failure of the primary strategy (the `ChromeUtils.import` of
`CookieManager.jsm`, its constructor, or `getCookiesFromHost` throwing);
`newApiCookieRemoveOk` records, per cookie, whether the primary
`cookieManager.remove(cookie)` call succeeds (each failure is caught
inside the loop and only logged).  The fallback tier uses
`removeAllFromHost` when present, else removes each cookie individually. -/
structure CookieEnv where
  hasURI : Bool
  host : Option String
  newApiThrows : Bool
  newApiCookieRemoveOk : List Bool
  hasRemoveAllFromHost : Bool
  removeAllFromHostThrows : Bool
  oldApiCookieRemoveOk : List Bool
deriving Repr, DecidableEq

/-- The observable outcome of one `clearCookies` request. -/
structure CookieResult where
  primaryRemoved : Nat
  fallbackInvoked : Nat
  fallbackRemoved : Nat
  reloaded : Bool
  panelClosed : Bool
  exceptionPropagated : Bool
deriving Repr, DecidableEq

/-- Count of successful per-cookie removals. -/
def countTrue (l : List Bool) : Nat := (l.filter id).length

/-- `clearCookies`: with no current URI or a falsy host nothing runs (but
the panel is still hidden).  Otherwise the primary strategy runs; only a
wholesale primary throw enters the fallback tier, which runs exactly once
(its own failure is caught by the `fallbackError` catch and logged).  The
reload happens after either tier, the outer `catch` keeps every exception
from the caller, and `hidePanel` runs last, outside the `try`. -/
def clearCookies (env : CookieEnv) : CookieResult :=
  if !env.hasURI then
    { primaryRemoved := 0, fallbackInvoked := 0, fallbackRemoved := 0
      reloaded := false, panelClosed := true, exceptionPropagated := false }
  else
    match env.host with
    | none =>
      { primaryRemoved := 0, fallbackInvoked := 0, fallbackRemoved := 0
        reloaded := false, panelClosed := true, exceptionPropagated := false }
    | some h =>
      if h = "" then
        { primaryRemoved := 0, fallbackInvoked := 0, fallbackRemoved := 0
          reloaded := false, panelClosed := true, exceptionPropagated := false }
      else if env.newApiThrows then
        let removed :=
          if env.hasRemoveAllFromHost then
            if env.removeAllFromHostThrows then 0 else env.oldApiCookieRemoveOk.length
          else countTrue env.oldApiCookieRemoveOk
        { primaryRemoved := 0, fallbackInvoked := 1, fallbackRemoved := removed
          reloaded := true, panelClosed := true, exceptionPropagated := false }
      else
        { primaryRemoved := countTrue env.newApiCookieRemoveOk, fallbackInvoked := 0
          fallbackRemoved := 0, reloaded := true, panelClosed := true
          exceptionPropagated := false }

/-! ## Helper lemmas: panel lifecycle -/

theorem listenerInv_initState : listenerInv initState := by decide

theorem listenerInv_showPanel (s : PMState) (t : Option Nat) (m : Bool)
    (h : listenerInv s) : listenerInv (showPanel s t m) := by
  obtain ⟨h1, h2, h3, h4⟩ := h
  unfold showPanel createPanel addPanelGlobalHandlers
  unfold listenerInv at *
  cases t with
  | none =>
    cases hpe : s.panelExists <;> cases m <;> simp_all
  | some btn =>
    cases hpe : s.panelExists <;> cases m <;> cases hio : s.isOpen <;> simp_all

theorem listenerInv_hidePanel (s : PMState) (h : listenerInv s) :
    listenerInv (hidePanel s) := by
  obtain ⟨h1, h2, h3, h4⟩ := h
  unfold hidePanel removePanelGlobalHandlers
  unfold listenerInv at *
  cases hio : s.isOpen <;> cases hpe : s.panelExists <;> simp_all

theorem listenerInv_runOps (s : PMState) (ops : List PanelOp) (h : listenerInv s) :
    listenerInv (runOps s ops) := by
  induction ops generalizing s with
  | nil => exact h
  | cons op rest ih =>
    cases op with
    | doShow t m =>
      simp only [runOps]
      exact ih _ (listenerInv_showPanel s t m h)
    | doHide =>
      simp only [runOps]
      exact ih _ (listenerInv_hidePanel s h)

theorem hidePanel_contextMenuId (s : PMState) :
    (hidePanel s).currentContextMenuExtensionId = s.currentContextMenuExtensionId := by
  unfold hidePanel removePanelGlobalHandlers
  cases h : (s.panelExists && s.isOpen) <;> simp_all
  cases hp : s.pointerDownBound <;> cases hk : s.keyDownBound <;> simp_all

/-! ## Claim C2 -/

/-- Claim C2: for every sequence of `showPanel` / `hidePanel` calls from
the constructor state, the number of registered global dismissal listeners
is exactly 0 whenever the panel is closed and exactly 2 (one pointer-down
handler and one key-down handler, both bound) whenever it is open, and it
never exceeds 2 — registration and deregistration stay symmetric across
every show/hide cycle. -/
theorem panel_dismissal_listener_exact (ops : List PanelOp) :
    ((runOps initState ops).isOpen = false → (runOps initState ops).windowListeners = 0) ∧
    ((runOps initState ops).isOpen = true →
      (runOps initState ops).pointerDownBound = true ∧
      (runOps initState ops).keyDownBound = true ∧
      (runOps initState ops).windowListeners = 2) ∧
    (runOps initState ops).windowListeners ≤ 2 := by
  obtain ⟨h1, h2, h3, h4⟩ := listenerInv_runOps initState ops listenerInv_initState
  refine ⟨?_, ?_, ?_⟩ <;> cases hio : (runOps initState ops).isOpen <;> simp_all

/-- Witness for C2: one show registers exactly the two listeners, and a
following hide removes both. -/
theorem panel_dismissal_listener_exact_witness :
    (runOps initState [PanelOp.doShow (some 1) true]).windowListeners = 2 ∧
    (runOps initState [PanelOp.doShow (some 1) true, PanelOp.doHide]).windowListeners = 0 :=
  ⟨((panel_dismissal_listener_exact [PanelOp.doShow (some 1) true]).2.1 (by decide)).2.2,
   (panel_dismissal_listener_exact [PanelOp.doShow (some 1) true, PanelOp.doHide]).1
     (by decide)⟩

/-! ## Claim C4 -/

/-- Counterexample for C4: after the pin menu action completes on a menu
opened for extension `ext-a`, the tracked `currentContextMenuExtensionId`
is still `ext-a` (and `currentContextMenu` is still set) — no menu action
clears the tracked target, contradicting the claimed return to the closed
state. -/
theorem contextMenu_id_survives_action :
    (menuPinCommand (showExtensionContextMenu initState "ext-a" true) true).currentContextMenuExtensionId
      = some "ext-a" ∧
    (menuPinCommand (showExtensionContextMenu initState "ext-a" true) true).currentContextMenu
      = true := by
  decide

/-- Claim C4 (amended): opening the extension context menu for an id
overwrites the tracked target id, from the closed state or over another
open menu alike (and is a no-op when `#mainPopupSet` is missing); menu
actions leave the tracked id in place, and only the explicit
`hideExtensionContextMenu` — reached via `cleanup` — returns the tracked
state to closed. -/
theorem contextMenu_tracking_amended (s : PMState) (i j : String) (pf : Bool) :
    (showExtensionContextMenu s i true).currentContextMenuExtensionId = some i ∧
    (showExtensionContextMenu (showExtensionContextMenu s j true) i true).currentContextMenuExtensionId
      = some i ∧
    showExtensionContextMenu s i false = s ∧
    (menuPinCommand (showExtensionContextMenu s i true) pf).currentContextMenuExtensionId
      = some i ∧
    (hideExtensionContextMenu s).currentContextMenuExtensionId = none ∧
    (cleanup s).currentContextMenuExtensionId = none := by
  refine ⟨?_, ?_, ?_, ?_, ?_, ?_⟩
  · unfold showExtensionContextMenu
    cases h : s.extensionMenuListenersSetup <;> simp_all
  · unfold showExtensionContextMenu
    cases h : s.extensionMenuListenersSetup <;> simp_all
  · unfold showExtensionContextMenu
    simp
  · unfold menuPinCommand pinExtensionToToolbar showExtensionContextMenu
    cases h : s.extensionMenuListenersSetup <;> cases pf <;>
      simp_all [hidePanel_contextMenuId]
  · unfold hideExtensionContextMenu
    simp
  · unfold cleanup hideExtensionContextMenu
    cases h : s.addonListener <;> simp_all

/-! ## Claim C9 -/

/-- Counterexample for C9: with the panel open (both dismissal listeners
registered), running the window-unload `cleanup` leaves both global
dismissal listeners registered — `cleanup` never calls
`removePanelGlobalHandlers`. -/
theorem cleanup_leaves_dismissal_listeners :
    (cleanup (runOps initState [PanelOp.doShow (some 1) true])).windowListeners = 2 ∧
    (cleanup (runOps initState [PanelOp.doShow (some 1) true])).pointerDownBound = true ∧
    (cleanup (runOps initState [PanelOp.doShow (some 1) true])).keyDownBound = true := by
  decide

/-- Claim C9 (amended): the window-unload `cleanup` removes the add-on
change listener, clears the context-menu tracking and resets the
extras-menu flag; it is idempotent and a call on the pristine state changes
nothing — but it does not deregister the global dismissal listeners, which
stay exactly as they were. -/
theorem cleanup_amended_behavior (s : PMState) :
    cleanup (cleanup s) = cleanup s ∧
    (cleanup s).addonListener = false ∧
    (cleanup s).currentContextMenu = false ∧
    (cleanup s).currentContextMenuExtensionId = none ∧
    (cleanup s).extrasMenuListenersSetup = false ∧
    (cleanup s).windowListeners = s.windowListeners ∧
    (cleanup s).pointerDownBound = s.pointerDownBound ∧
    (cleanup s).keyDownBound = s.keyDownBound ∧
    cleanup initState = initState := by
  unfold cleanup hideExtensionContextMenu initState
  cases h : s.addonListener <;> simp_all

/-! ## Claim C10 -/

/-- Claim C10: calling `showPanel` with no anchor button, or when panel
construction fails because `#mainPopupSet` is missing, does not open the
panel: `isOpen` stays false, no global dismissal listener is registered,
`lastAnchorButton` is unchanged, and the panel-state invariant is
preserved. -/
theorem showPanel_degenerate_input (s : PMState) (targetButton : Option Nat)
    (mainPopupSetPresent : Bool)
    (hclosed : s.isOpen = false) (hinv : listenerInv s)
    (hdeg : targetButton = none ∨
      (s.panelExists = false ∧ mainPopupSetPresent = false)) :
    (showPanel s targetButton mainPopupSetPresent).isOpen = false ∧
    (showPanel s targetButton mainPopupSetPresent).windowListeners = 0 ∧
    (showPanel s targetButton mainPopupSetPresent).pointerDownBound = false ∧
    (showPanel s targetButton mainPopupSetPresent).keyDownBound = false ∧
    (showPanel s targetButton mainPopupSetPresent).lastAnchorButton = s.lastAnchorButton ∧
    listenerInv (showPanel s targetButton mainPopupSetPresent) := by
  obtain ⟨h1, h2, h3, h4⟩ := hinv
  unfold listenerInv
  rcases hdeg with rfl | ⟨hpe, rfl⟩
  · unfold showPanel createPanel
    cases hpe : s.panelExists <;> cases mainPopupSetPresent <;> simp_all
  · unfold showPanel createPanel
    cases targetButton <;> simp_all

/-- Witness for C10: `showPanel` on the pristine closed state with a null
anchor leaves the panel closed with no listeners. -/
theorem showPanel_degenerate_input_witness :
    (showPanel initState none true).isOpen = false ∧
    (showPanel initState none true).windowListeners = 0 ∧
    (showPanel initState none true).pointerDownBound = false ∧
    (showPanel initState none true).keyDownBound = false ∧
    (showPanel initState none true).lastAnchorButton = initState.lastAnchorButton ∧
    listenerInv (showPanel initState none true) :=
  showPanel_degenerate_input initState none true (by decide) listenerInv_initState
    (Or.inl rfl)

/-! ## Helper lemmas: extension-list reconciliation -/

theorem renderedIds_updateFirstMatching (container : List ExtNode) (addon : Addon) :
    renderedIds (updateFirstMatching container addon) = renderedIds container := by
  induction container with
  | nil => rfl
  | cons n rest ih =>
    unfold updateFirstMatching
    by_cases h : n.extId = addon.id <;>
      simp_all [renderedIds, updateExistingExtension]

theorem mem_renderedIds_processOne (container : List ExtNode) (addon : Addon)
    (i : String) :
    i ∈ renderedIds (processOneExtension container addon) ↔
      i = addon.id ∨ i ∈ renderedIds container := by
  unfold processOneExtension
  by_cases h : container.any (fun n => n.extId = addon.id) = true
  · have hmem : addon.id ∈ renderedIds container := by
      obtain ⟨n, hn, hid⟩ := List.any_eq_true.mp h
      simp only [decide_eq_true_eq] at hid
      exact hid ▸ List.mem_map_of_mem ExtNode.extId hn
    simp only [h, if_true, renderedIds_updateFirstMatching]
    constructor
    · exact Or.inr
    · rintro (rfl | hi)
      · exact hmem
      · exact hi
  · rw [if_neg h]
    simp [renderedIds, createExtensionNode]

theorem nodup_renderedIds_processOne (container : List ExtNode) (addon : Addon)
    (h : (renderedIds container).Nodup) :
    (renderedIds (processOneExtension container addon)).Nodup := by
  unfold processOneExtension
  by_cases hany : container.any (fun n => n.extId = addon.id) = true
  · simpa [hany, renderedIds_updateFirstMatching] using h
  · have hnotin : addon.id ∉ renderedIds container := by
      intro hmem
      obtain ⟨n, hn, hid⟩ := List.mem_map.mp hmem
      exact hany (List.any_eq_true.mpr ⟨n, hn, by simp [hid]⟩)
    rw [if_neg hany]
    simp only [renderedIds, List.map_cons]
    exact List.nodup_cons.mpr ⟨by simpa [createExtensionNode, renderedIds] using hnotin, h⟩

theorem mem_renderedIds_loop (userExtensions : List Addon) (container : List ExtNode)
    (i : String) :
    i ∈ renderedIds (processExtensionsLoop container userExtensions) ↔
      i ∈ renderedIds container ∨ i ∈ addonIds userExtensions := by
  induction userExtensions generalizing container with
  | nil => simp [processExtensionsLoop, addonIds]
  | cons a rest ih =>
    simp only [processExtensionsLoop]
    rw [ih (processOneExtension container a), mem_renderedIds_processOne]
    simp only [addonIds, List.map_cons, List.mem_cons]
    tauto

theorem nodup_renderedIds_loop (userExtensions : List Addon) (container : List ExtNode)
    (h : (renderedIds container).Nodup) :
    (renderedIds (processExtensionsLoop container userExtensions)).Nodup := by
  induction userExtensions generalizing container with
  | nil => exact h
  | cons a rest ih =>
    simp only [processExtensionsLoop]
    exact ih _ (nodup_renderedIds_processOne container a h)

theorem mem_renderedIds_processExtensions (container : List ExtNode)
    (userExtensions : List Addon) (i : String)
    (hne : ∀ n ∈ container, n.extId ≠ "") :
    i ∈ renderedIds (processExtensions container userExtensions) ↔
      i ∈ addonIds userExtensions := by
  unfold processExtensions removeUninstalledExtensions
  have hfilter :
      i ∈ renderedIds ((processExtensionsLoop container userExtensions).filter fun n =>
          decide (n.extId = "") || userExtensions.any fun a => decide (a.id = n.extId)) ↔
        i ∈ renderedIds (processExtensionsLoop container userExtensions) ∧
          (i = "" ∨ i ∈ addonIds userExtensions) := by
    simp only [renderedIds, List.mem_map, List.mem_filter, Bool.or_eq_true,
      decide_eq_true_eq, List.any_eq_true, addonIds]
    constructor
    · rintro ⟨n, ⟨hn, hp⟩, rfl⟩
      refine ⟨⟨n, hn, rfl⟩, ?_⟩
      rcases hp with hp | ⟨a, ha, hp⟩
      · exact Or.inl hp
      · exact Or.inr ⟨a, ha, hp⟩
    · rintro ⟨⟨n, hn, rfl⟩, hp⟩
      refine ⟨n, ⟨hn, ?_⟩, rfl⟩
      rcases hp with hp | ⟨a, ha, hp⟩
      · exact Or.inl hp
      · exact Or.inr ⟨a, ha, hp⟩
  rw [hfilter, mem_renderedIds_loop]
  constructor
  · rintro ⟨hmem | hmem, hp | hp⟩
    · obtain ⟨n, hn, hid⟩ := List.mem_map.mp hmem
      exact absurd (hid.trans hp) (hne n hn)
    · exact hp
    · exact hmem
    · exact hp
  · intro hp
    exact ⟨Or.inr hp, Or.inr hp⟩

theorem nodup_renderedIds_processExtensions (container : List ExtNode)
    (userExtensions : List Addon) (h : (renderedIds container).Nodup) :
    (renderedIds (processExtensions container userExtensions)).Nodup := by
  unfold processExtensions removeUninstalledExtensions
  have hloop := nodup_renderedIds_loop userExtensions container h
  exact List.Nodup.sublist (List.Sublist.map _ (List.filter_sublist _)) hloop

theorem loop_fresh_append (userExtensions : List Addon) (container : List ExtNode)
    (hfresh : ∀ a ∈ userExtensions, ∀ n ∈ container, n.extId ≠ a.id)
    (hnd : (addonIds userExtensions).Nodup) :
    processExtensionsLoop container userExtensions =
      userExtensions.reverse.map createExtensionNode ++ container := by
  induction userExtensions generalizing container with
  | nil => simp [processExtensionsLoop]
  | cons a rest ih =>
    have hnotin : ¬ container.any (fun n => n.extId = a.id) = true := by
      intro hany
      obtain ⟨n, hn, hid⟩ := List.any_eq_true.mp hany
      simp only [decide_eq_true_eq] at hid
      exact hfresh a (List.mem_cons_self a rest) n hn hid
    have hstep : processOneExtension container a = createExtensionNode a :: container := by
      unfold processOneExtension
      simp [hnotin]
    have hnd0 : a.id ∉ List.map Addon.id rest ∧ (List.map Addon.id rest).Nodup := by
      have h0 := hnd
      simp only [addonIds, List.map_cons, List.nodup_cons] at h0
      exact h0
    have hhead : a.id ∉ addonIds rest := hnd0.1
    have hfresh' : ∀ b ∈ rest, ∀ n ∈ createExtensionNode a :: container, n.extId ≠ b.id := by
      intro b hb n hn
      rcases List.mem_cons.mp hn with rfl | hn
      · simp only [createExtensionNode]
        intro hab
        exact hhead (hab ▸ List.mem_map_of_mem Addon.id hb)
      · exact hfresh b (List.mem_cons_of_mem a hb) n hn
    have hnd' : (addonIds rest).Nodup := hnd0.2
    simp only [processExtensionsLoop, hstep]
    rw [ih (createExtensionNode a :: container) hfresh' hnd']
    simp [List.reverse_cons, List.map_append, List.append_assoc]

/-! ## Claim C1 -/

/-- Claim C1: after one reconciliation pass (the `processExtensions` loop
followed by `removeUninstalledExtensions`) over any previously rendered
container whose tags are duplicate-free and non-empty, the set of
`data-extension-id` values on rendered nodes equals exactly the set of ids
of the current non-system extensions — no duplicates, no stale entries, no
omissions. -/
theorem reconciliation_ids_exact (container : List ExtNode) (userExtensions : List Addon)
    (hnd : (renderedIds container).Nodup)
    (hne : ∀ n ∈ container, n.extId ≠ "") :
    (renderedIds (processExtensions container userExtensions)).Nodup ∧
    (renderedIds (processExtensions container userExtensions)).toFinset =
      (addonIds userExtensions).toFinset := by
  refine ⟨nodup_renderedIds_processExtensions container userExtensions hnd, ?_⟩
  ext i
  simp only [List.mem_toFinset]
  exact mem_renderedIds_processExtensions container userExtensions i hne

/-- Sample addon with an invocable action. -/
def sampleA : Addon :=
  { id := "ext-alpha", name := "Alpha", iconURL := some "https://example.invalid/alpha.png"
    isActive := true, hasPolicy := true, hasAction := true }

/-- Sample disabled addon with no declared icon. -/
def sampleB : Addon :=
  { id := "ext-beta", name := "Beta", iconURL := none
    isActive := false, hasPolicy := false, hasAction := false }

/-- Sample active addon without an invocable action. -/
def sampleC : Addon :=
  { id := "ext-gamma", name := "Gamma", iconURL := some ""
    isActive := true, hasPolicy := true, hasAction := false }

/-- A stale rendered entry whose extension is no longer installed. -/
def sampleStale : ExtNode :=
  { extId := "ext-old", src := "old.png", tooltip := "Disable Old", enabled := true }

/-- A rendered entry for `sampleB`, already present before the pass. -/
def sampleKept : ExtNode := createExtensionNode sampleB

/-- Witness for C1: a pass over a container holding one stale entry and one
kept entry, against a current set of two extensions, yields exactly the two
current ids. -/
theorem reconciliation_ids_exact_witness :
    (renderedIds (processExtensions [sampleStale, sampleKept] [sampleA, sampleB])).Nodup ∧
    (renderedIds (processExtensions [sampleStale, sampleKept] [sampleA, sampleB])).toFinset =
      (addonIds [sampleA, sampleB]).toFinset :=
  reconciliation_ids_exact [sampleStale, sampleKept] [sampleA, sampleB]
    (by decide) (by decide)

/-! ## Claim C6 -/

/-- Claim C6: with nothing previously rendered, a reconciliation pass over
extensions listed in install order renders them newest-first — the
container afterwards is the reversed install order, each extension having
been inserted as the container's first child. -/
theorem reconciliation_newest_first (userExtensions : List Addon)
    (hnd : (addonIds userExtensions).Nodup) :
    processExtensions [] userExtensions =
      userExtensions.reverse.map createExtensionNode := by
  unfold processExtensions
  rw [loop_fresh_append userExtensions [] (by simp) hnd, List.append_nil]
  unfold removeUninstalledExtensions
  rw [List.filter_eq_self.mpr]
  intro n hn
  obtain ⟨a, ha, rfl⟩ := List.mem_map.mp hn
  have ha' : a ∈ userExtensions := List.mem_reverse.mp ha
  by_cases h : a.id = ""
  · simp [createExtensionNode, h]
  · simp only [createExtensionNode, Bool.or_eq_true, decide_eq_true_eq, List.any_eq_true]
    exact Or.inr ⟨a, ha', rfl⟩

/-- Witness for C6: extensions installed in order `[A, B, C]` render as
`[C, B, A]` — first child `C`, then `B`, then `A`. -/
theorem reconciliation_newest_first_witness :
    processExtensions [] [sampleA, sampleB, sampleC] =
      [createExtensionNode sampleC, createExtensionNode sampleB,
        createExtensionNode sampleA] := by
  have h := reconciliation_newest_first [sampleA, sampleB, sampleC] (by decide)
  simpa using h

/-! ## Helper lemmas: extension click -/

theorem updateExtensionImageState_split (pre post : List ExtNode) (node : ExtNode)
    (extensionId : String) (isEnabled : Bool) (addonAfter : Option Addon)
    (hid : node.extId = extensionId)
    (hpre : ∀ n ∈ pre, n.extId ≠ extensionId) :
    updateExtensionImageState (pre ++ node :: post) extensionId isEnabled addonAfter =
      pre ++ setNodeState node isEnabled addonAfter :: post := by
  induction pre with
  | nil =>
    simp only [List.nil_append, updateExtensionImageState]
    rw [if_pos hid]
  | cons m rest ih =>
    have hm : m.extId ≠ extensionId := hpre m (List.mem_cons_self m rest)
    simp only [List.cons_append, updateExtensionImageState]
    rw [if_neg hm]
    simp only [List.append_eq]
    rw [ih (fun n hn => hpre n (List.mem_cons_of_mem m hn))]

/-! ## Claim C5 -/

/-- Claim C5: a click on a rendered extension entry opens the extension's
action popup when a policy with an invocable browser action exists;
otherwise (assuming the addon lookup succeeds and no host call throws) the
extension's enabled state is flipped and exactly that entry's `enabled`
attribute and tooltip are rewritten to the new active state — every other
rendered entry is untouched, with no reconciliation pass. -/
theorem extension_click_behavior (pre post : List ExtNode) (node : ExtNode)
    (addon : Addon) (env : PopupEnv)
    (hid : node.extId = addon.id)
    (hpre : ∀ n ∈ pre, n.extId ≠ addon.id)
    (hlookup : env.addonLookup = some addon)
    (hp : env.openPopupThrows = false)
    (hd : env.disableThrows = false) :
    (env.hasPolicy = true → env.hasAction = true →
      openExtensionPopup (pre ++ node :: post) addon.id env =
        { popupOpened := true, container := pre ++ node :: post
          addonNowActive := none, panelClosed := true }) ∧
    ((env.hasPolicy && env.hasAction) = false →
      openExtensionPopup (pre ++ node :: post) addon.id env =
        { popupOpened := false
          container := pre ++
            { node with
              enabled := !addon.isActive
              tooltip := getExtensionTooltip
                { addon with isActive := !addon.isActive } } :: post
          addonNowActive := some (!addon.isActive), panelClosed := true }) := by
  have hcontainer := updateExtensionImageState_split pre post node addon.id
    (!addon.isActive) (some addon) hid hpre
  constructor
  · intro hpol hact
    unfold openExtensionPopup
    simp [hpol, hact, hp]
  · intro hna
    unfold openExtensionPopup toggleExtensionState
    rw [hlookup]
    cases hpol : env.hasPolicy <;> cases hact : env.hasAction <;>
      simp_all [setNodeState]

/-- Witness for C5: `sampleC` is active with a policy but no invocable
action, so a click toggles it off and only its own rendered entry changes. -/
theorem extension_click_behavior_witness :
    openExtensionPopup [createExtensionNode sampleA, createExtensionNode sampleC]
      sampleC.id
      { hasPolicy := true, hasAction := false, openPopupThrows := false
        addonLookup := some sampleC, disableThrows := false } =
      { popupOpened := false
        container := [createExtensionNode sampleA,
          { createExtensionNode sampleC with
            enabled := !sampleC.isActive
            tooltip := getExtensionTooltip { sampleC with isActive := !sampleC.isActive } }]
        addonNowActive := some (!sampleC.isActive), panelClosed := true } :=
  (extension_click_behavior [createExtensionNode sampleA] [] (createExtensionNode sampleC)
    sampleC
    { hasPolicy := true, hasAction := false, openPopupThrows := false
      addonLookup := some sampleC, disableThrows := false }
    (by decide) (by decide) rfl rfl rfl).2 (by decide)

/-! ## Claim C7 -/

/-- Claim C7: `updateSecurityStatus` picks the icon by three mutually
exclusive, priority-ordered conditions — sharing indicator first
(shield-check), then permissions indicator (shield-exclamation), then the
scheme fallback (https secure, http lock-open, anything else the neutral
info icon) — and a missing DOM anchor makes the whole update a logged
no-op (`none`), never a thrown error (the model is total). -/
theorem security_status_priority (env : SecurityEnv) :
    ((env.securityImagePresent = false ∨ env.identityBoxPresent = false) →
      updateSecurityStatus env = none) ∧
    (env.securityImagePresent = true → env.identityBoxPresent = true →
      ((env.hasSharingIcon = true →
        updateSecurityStatus env =
          some "chrome://browser/skin/zen-icons/shield-check.svg") ∧
      (env.hasSharingIcon = false → env.hasPermissions = true →
        updateSecurityStatus env =
          some "chrome://browser/skin/zen-icons/shield-exclamation.svg") ∧
      (env.hasSharingIcon = false → env.hasPermissions = false →
        env.uriScheme = some "https" →
        updateSecurityStatus env =
          some "chrome://browser/skin/zen-icons/security.svg") ∧
      (env.hasSharingIcon = false → env.hasPermissions = false →
        env.uriScheme = some "http" →
        updateSecurityStatus env =
          some "chrome://browser/skin/zen-icons/lock-open.svg") ∧
      (∀ s, env.hasSharingIcon = false → env.hasPermissions = false →
        env.uriScheme = some s → s ≠ "https" → s ≠ "http" →
        updateSecurityStatus env =
          some "chrome://browser/skin/zen-icons/info.svg") ∧
      (env.hasSharingIcon = false → env.hasPermissions = false →
        env.uriScheme = none →
        updateSecurityStatus env =
          some "chrome://browser/skin/zen-icons/info.svg"))) := by
  unfold updateSecurityStatus
  refine ⟨?_, ?_⟩
  · rintro (h | h) <;> simp [h]
  · intro h1 h2
    refine ⟨?_, ?_, ?_, ?_, ?_, ?_⟩ <;> intros <;> simp_all

/-- Witness for C7: the sharing indicator wins over a simultaneous
permissions indicator and an http scheme; an unknown scheme falls back to
the neutral icon; a missing identity box is a no-op. -/
theorem security_status_priority_witness :
    updateSecurityStatus
      { securityImagePresent := true, identityBoxPresent := true
        hasSharingIcon := true, hasPermissions := true, uriScheme := some "http" } =
      some "chrome://browser/skin/zen-icons/shield-check.svg" ∧
    updateSecurityStatus
      { securityImagePresent := true, identityBoxPresent := true
        hasSharingIcon := false, hasPermissions := false, uriScheme := some "about" } =
      some "chrome://browser/skin/zen-icons/info.svg" ∧
    updateSecurityStatus
      { securityImagePresent := true, identityBoxPresent := false
        hasSharingIcon := true, hasPermissions := true, uriScheme := some "https" } =
      none :=
  ⟨((security_status_priority _).2 rfl rfl).1 rfl,
   ((security_status_priority _).2 rfl rfl).2.2.2.2.1 "about" rfl rfl rfl
     (by decide) (by decide),
   (security_status_priority _).1 (Or.inr rfl)⟩

/-! ## Claim C3 -/

/-- Counterexample for C3: `removeExtension` called when the addon lookup
fails early-exits without closing the panel even though no confirmation was
shown (so the declined-confirmation exception does not apply); and even a
confirmed, fully successful uninstall leaves the panel open, because the
nonexistent `this.updateExtensions()` throws before `hidePanel` is
reached. -/
theorem removeExtension_no_close_counterexample :
    (removeExtension
      { addonFound := false, confirmed := true, hasUninstall := true
        hasRemove := true, uninstallThrows := false }).panelClosed = false ∧
    (removeExtension
      { addonFound := false, confirmed := true, hasUninstall := true
        hasRemove := true, uninstallThrows := false }).promptShown = false ∧
    (removeExtension
      { addonFound := true, confirmed := true, hasUninstall := true
        hasRemove := false, uninstallThrows := false }).uninstalled = true ∧
    (removeExtension
      { addonFound := true, confirmed := true, hasUninstall := true
        hasRemove := false, uninstallThrows := false }).panelClosed = false := by
  decide

/-- Claim C3 (amended): `clearCookies` always ends by closing the panel,
success or failure; a declined removal confirmation leaves the panel open
and the extension set untouched; but `removeExtension` closes the panel
only on the no-removal-API manage-page fallback (a missing addon, a
rejecting removal promise, and even a successful uninstall — aborted by the
nonexistent `updateExtensions` method — all leave it open), and
`openExtensionPopup` closes it exactly when the popup opens without
throwing or the fallback state toggle completes with a found addon and no
host rejection. -/
theorem action_close_amended (cenv : CookieEnv) (renv : RemoveEnv)
    (container : List ExtNode) (extensionId : String) (env : PopupEnv) :
    (clearCookies cenv).panelClosed = true ∧
    (removeExtension renv).panelClosed =
      (renv.addonFound && renv.confirmed && !renv.hasUninstall && !renv.hasRemove) ∧
    (renv.addonFound = true → renv.confirmed = false →
      (removeExtension renv).uninstalled = false ∧
      (removeExtension renv).panelClosed = false) ∧
    (openExtensionPopup container extensionId env).panelClosed =
      (env.hasPolicy && env.hasAction && !env.openPopupThrows ||
        (!(env.hasPolicy && env.hasAction) && env.addonLookup.isSome &&
          !env.disableThrows)) := by
  refine ⟨?_, ?_, ?_, ?_⟩
  · unfold clearCookies
    repeat' split
    all_goals rfl
  · rcases renv with ⟨af, cf, hu, hr, ut⟩
    cases af <;> cases cf <;> cases hu <;> cases hr <;> cases ut <;> rfl
  · intro h1 h2
    simp [removeExtension, h1, h2]
  · rcases env with ⟨hpol, hact, opt, al, dt⟩
    cases hpol <;> cases hact <;> cases opt <;> cases dt <;> cases al <;>
      simp [openExtensionPopup, toggleExtensionState]

/-- A declined removal confirmation. -/
def sampleDeclined : RemoveEnv :=
  { addonFound := true, confirmed := false, hasUninstall := true
    hasRemove := false, uninstallThrows := false }

/-- A cookie-clear request whose primary strategy succeeds. -/
def sampleCookieEnv : CookieEnv :=
  { hasURI := true, host := some "example.com", newApiThrows := false
    newApiCookieRemoveOk := [true, true], hasRemoveAllFromHost := false
    removeAllFromHostThrows := false, oldApiCookieRemoveOk := [] }

/-- Witness for the amended C3: cookie clearing closes the panel, and a
declined confirmation removes nothing and leaves the panel open. -/
theorem action_close_amended_witness :
    (clearCookies sampleCookieEnv).panelClosed = true ∧
    (removeExtension sampleDeclined).uninstalled = false ∧
    (removeExtension sampleDeclined).panelClosed = false :=
  ⟨(action_close_amended sampleCookieEnv sampleDeclined [] "ext-x"
      { hasPolicy := false, hasAction := false, openPopupThrows := false
        addonLookup := none, disableThrows := false }).1,
   ((action_close_amended sampleCookieEnv sampleDeclined [] "ext-x"
      { hasPolicy := false, hasAction := false, openPopupThrows := false
        addonLookup := none, disableThrows := false }).2.2.1 rfl rfl).1,
   ((action_close_amended sampleCookieEnv sampleDeclined [] "ext-x"
      { hasPolicy := false, hasAction := false, openPopupThrows := false
        addonLookup := none, disableThrows := false }).2.2.1 rfl rfl).2⟩

/-! ## Claim C8 -/

/-- A clear-cookies request in which the primary strategy's per-cookie
removals all fail (each throw is caught inside the primary loop). -/
def cookieEnvAllFail : CookieEnv :=
  { hasURI := true, host := some "example.com", newApiThrows := false
    newApiCookieRemoveOk := [false, false, false]
    hasRemoveAllFromHost := true, removeAllFromHostThrows := false
    oldApiCookieRemoveOk := [] }

/-- Counterexample for C8: when the primary removal strategy fails for
every cookie (three cookies, zero removed), the fallback strategy is
invoked zero times — not exactly once — though the reload still happens:
per-cookie failures are swallowed inside the primary loop and never reach
the fallback tier. -/
theorem clearCookies_fallback_counterexample :
    cookieEnvAllFail.newApiCookieRemoveOk ≠ [] ∧
    cookieEnvAllFail.newApiCookieRemoveOk.all (fun b => !b) = true ∧
    (clearCookies cookieEnvAllFail).primaryRemoved = 0 ∧
    (clearCookies cookieEnvAllFail).fallbackInvoked = 0 ∧
    (clearCookies cookieEnvAllFail).reloaded = true := by
  decide

/-- Claim C8 (amended): the fallback tier runs exactly once — and only —
when the primary strategy fails wholesale (the module import, constructor
or cookie enumeration throws); per-cookie removal failures inside the
primary loop never trigger it.  Either way the page reload still occurs,
no exception reaches the caller, and there is never more than the single
fallback tier. -/
theorem clearCookies_fallback_amended (env : CookieEnv) (h : String)
    (hu : env.hasURI = true) (hh : env.host = some h) (hne : h ≠ "") :
    (env.newApiThrows = true →
      (clearCookies env).fallbackInvoked = 1 ∧ (clearCookies env).reloaded = true) ∧
    (env.newApiThrows = false →
      (clearCookies env).fallbackInvoked = 0 ∧ (clearCookies env).reloaded = true) ∧
    (clearCookies env).exceptionPropagated = false ∧
    (clearCookies env).fallbackInvoked ≤ 1 := by
  cases ht : env.newApiThrows <;> simp [clearCookies, hu, hh, hne, ht]

/-- A clear-cookies request whose primary strategy throws wholesale. -/
def cookieEnvPrimaryThrows : CookieEnv :=
  { hasURI := true, host := some "example.com", newApiThrows := true
    newApiCookieRemoveOk := [], hasRemoveAllFromHost := false
    removeAllFromHostThrows := false, oldApiCookieRemoveOk := [true, false] }

/-- Witness for the amended C8: a wholesale primary failure invokes the
fallback exactly once, still reloads, and propagates nothing. -/
theorem clearCookies_fallback_amended_witness :
    (clearCookies cookieEnvPrimaryThrows).fallbackInvoked = 1 ∧
    (clearCookies cookieEnvPrimaryThrows).reloaded = true ∧
    (clearCookies cookieEnvPrimaryThrows).exceptionPropagated = false :=
  ⟨((clearCookies_fallback_amended cookieEnvPrimaryThrows "example.com" rfl rfl
      (by decide)).1 rfl).1,
   ((clearCookies_fallback_amended cookieEnvPrimaryThrows "example.com" rfl rfl
      (by decide)).1 rfl).2,
   (clearCookies_fallback_amended cookieEnvPrimaryThrows "example.com" rfl rfl
      (by decide)).2.2.1⟩

end PageControls
